import Mathlib

/-!
Shallow embedding of `shadowsocks-service/src/local/online_config/mod.rs`
(the SIP008 Online Config background synchronization service).

External collaborators (the HTTP transport, the MIME parser, the document
parser `Config::load_from_str`, the integrity checker `check_integrity`, and
the outcome of `PingBalancer::reset_servers`) are modelled as oracle fields of
an `Env` record. The server pool behind the balancer handle is threaded
explicitly as a `List ServerEntry`. Wall-clock time is modelled by oracle
durations for each suspension point (request send, each body-chunk read, the
pool update); `tokio::time::timeout` becomes a comparison of the cycle's
completion time against the 30-second deadline, with the cancelled cycle
performing no pool mutation (the only mutating step is the final one).

Observable effects of one cycle are recorded in an `ImplOut` trace: the
requests sent, the bodies handed to the parser, and the
`reset_servers` invocations with their arguments.
-/

/-- Source tag attached to pool entries (`shadowsocks::config::ServerSource`).
Only `onlineConfig` is referenced by this unit; the other variants stand for
entries owned by other subsystems (static config files, etc.). -/
inductive ServerSource
  | configFile
  | commandLine
  | onlineConfig
deriving DecidableEq, Repr

/-- One server entry stored in the balancer's pool, logically tagged with the
source that produced it. The payload is opaque to this unit. -/
structure ServerEntry where
  source : ServerSource
  payload : String
deriving DecidableEq, Repr

/-- Config variants of `crate::config::ConfigType`; `run_once_impl` always
parses with `onlineConfig`. -/
inductive ConfigType
  | local
  | server
  | manager
  | onlineConfig
deriving DecidableEq, Repr

/-- Parsed configuration (`crate::config::Config`, external): this unit only
consumes its `server` list; every other field is opaque (`meta`). -/
structure Config where
  server : List ServerEntry
  meta : Nat
deriving DecidableEq, Repr

/-- Error kinds of `std::io::ErrorKind` that this unit distinguishes; every
other kind is represented by `kindCode`. -/
inductive IoErrorKind
  | timedOut
  | other
  | kindCode (n : Nat)
deriving DecidableEq, Repr

/-- Payload (the wrapped source error) of an `io::Error` produced by this
unit, one constructor per construction site in `run_once_impl`;
`balancerError` is an error object passed through from
`PingBalancer::reset_servers`, and `emptyPayload` is the payload-free
`io::ErrorKind::TimedOut.into()`. -/
inductive ErrorPayload
  | hyperHttpError
  | transportError
  | bodyReadError
  | nonUtf8Body
  | parseError
  | integrityError
  | balancerError (detail : Nat)
  | emptyPayload
deriving DecidableEq, Repr

/-- An `std::io::Error`: a kind plus the wrapped payload. -/
structure IoError where
  kind : IoErrorKind
  payload : ErrorPayload
deriving DecidableEq, Repr

/-- The outgoing `hyper::Request` as built by `run_once_impl`: method,
`User-Agent` header, target URI and body string. -/
structure Request where
  method : String
  userAgent : String
  uri : String
  body : String
deriving DecidableEq, Repr

/-- Injection of `Except` into `Sum`, used to derive decidable equality. -/
def exceptToSum {ε α : Type} : Except ε α → ε ⊕ α
  | .error e => .inl e
  | .ok a => .inr a

instance {ε α : Type} [DecidableEq ε] [DecidableEq α] : DecidableEq (Except ε α) :=
  fun a b =>
    decidable_of_iff (exceptToSum a = exceptToSum b)
      (by cases a <;> cases b <;> simp [exceptToSum])

/-- The HTTP response: status code, raw `Content-Type` and `Content-Length`
header bytes (when present), and the body data stream, each item either a
successfully read chunk of bytes or a read error. -/
structure Response where
  status : Nat
  contentType : Option (List Nat)
  contentLength : Option (List Nat)
  chunks : List (Except Unit (List Nat))
deriving DecidableEq, Repr

/-- A parsed MIME value (`mime::Mime`, external crate): top-level type,
subtype, and the `charset` parameter when present. -/
structure Mime where
  mimeType : String
  mimeSubtype : String
  charset : Option String
deriving DecidableEq, Repr

/-- Oracle for everything outside this unit: the compile-time package
name/version, `hyper`'s request validation, the HTTP client, the MIME parser,
the document parser, the integrity checker, the outcome of the balancer's
`reset_servers` (kind and opaque detail when it fails), and the wall-clock
durations of the suspension points. -/
structure Env where
  pkgName : String
  pkgVersion : String
  requestOk : Request → Bool
  send : Request → Except Unit Response
  mimeParse : String → Option Mime
  load_from_str : List Nat → ConfigType → Except Unit Config
  check_integrity : Config → Except Unit Unit
  resetErr : Option (IoErrorKind × Nat)
  durSend : Nat
  durChunks : List Nat
  durUpdate : Nat

/-- The `OnlineConfigServiceBuilder` struct. The balancer is a handle
(identifier) to the shared pool; the pool content itself is threaded
separately. -/
structure OnlineConfigServiceBuilder where
  context : Nat
  config_url : String
  balancer : Nat
  config_update_interval : Nat
deriving DecidableEq, Repr

/-- The `OnlineConfigService` struct. -/
structure OnlineConfigService where
  context : Nat
  http_client : Unit
  config_url : String
  config_update_interval : Nat
  balancer : Nat
deriving DecidableEq, Repr

/-- The `OnlineConfigServiceBuilder::new` constructor: default update
interval is 3600 seconds. -/
def OnlineConfigServiceBuilder.new (context : Nat) (config_url : String) (balancer : Nat) :
    OnlineConfigServiceBuilder :=
  { context := context, config_url := config_url, balancer := balancer,
    config_update_interval := 3600 }

/-- The `set_update_interval` setter. -/
def OnlineConfigServiceBuilder.set_update_interval (b : OnlineConfigServiceBuilder)
    (update_interval : Nat) : OnlineConfigServiceBuilder :=
  { b with config_update_interval := update_interval }

/-- The `SHADOWSOCKS_USER_AGENT` constant:
`concat!(env!("CARGO_PKG_NAME"), "/", env!("CARGO_PKG_VERSION"))`. -/
def shadowsocksUserAgent (env : Env) : String :=
  env.pkgName ++ "/" ++ env.pkgVersion

/-- The request built at the top of `run_once_impl`: a GET to the configured
URL with the `User-Agent` header and an empty `String::new()` body. -/
def theRequest (s : OnlineConfigService) (env : Env) : Request :=
  { method := "GET", userAgent := shadowsocksUserAgent env, uri := s.config_url, body := "" }

/-- A `HeaderValue::to_str`: succeeds when every byte is visible ASCII or
space (32..=126), yielding the corresponding string. -/
def headerToStr (bytes : List Nat) : Option String :=
  if bytes.all (fun b => decide (32 ≤ b ∧ b ≤ 126)) then
    some (String.mk (bytes.map (fun b => Char.ofNat b)))
  else none

/-- A `str::parse::<usize>`: digits only, rejecting values that overflow a
64-bit usize. -/
def parseUsize (st : String) : Option Nat :=
  match st.toNat? with
  | some n => if n < 18446744073709551616 then some n else none
  | none => none

/-- Outcome of the advisory `Content-Type` inspection, mirroring the five
branches of the `match` at lines 113-140 of the source (trace on full match,
three distinct warnings, and the missing-header warning). It is only ever
logged. -/
inductive CtVerdict
  | ok
  | mismatch
  | parseFailed
  | notUtf8
  | missing
deriving DecidableEq, Repr

/-- The advisory `Content-Type` inspection of `run_once_impl`: look the
header up, convert it to a string, parse it as a MIME value, and compare it
with `application/json; charset=utf-8`. -/
def contentTypeVerdict (mimeParse : String → Option Mime) :
    Option (List Nat) → CtVerdict
  | none => .missing
  | some h =>
    match headerToStr h with
    | none => .notUtf8
    | some hstr =>
      match mimeParse hstr with
      | none => .parseFailed
      | some m =>
        if m.mimeType = "application" ∧ m.mimeSubtype = "json" ∧ m.charset = some "utf-8" then
          .ok
        else .mismatch

/-- A `Vec<u8>` buffer: its data plus its capacity. The capacity is carried
so that the `Content-Length` hint's only effect (a `Vec::reserve` call) is
visible in the model. -/
structure Buf where
  data : List Nat
  cap : Nat
deriving DecidableEq, Repr

/-- A `Vec::reserve(n)`: capacity becomes at least `len + n`; data unchanged. -/
def Buf.reserve (b : Buf) (n : Nat) : Buf :=
  { b with cap := max b.cap (b.data.length + n) }

/-- A `Vec::extend_from_slice`: append the chunk, growing capacity as
needed. -/
def Buf.extend (b : Buf) (d : List Nat) : Buf :=
  { data := b.data ++ d, cap := max b.cap (b.data.length + d.length) }

/-- The buffer `run_once_impl` starts body collection with: an empty
`Vec::new()`, reserved to the `Content-Length` value when that header is
present, converts to a string, and parses as a usize. -/
def initialBuf (rsp : Response) : Buf :=
  let buf : Buf := { data := [], cap := 0 }
  match rsp.contentLength with
  | some clBytes =>
    match headerToStr clBytes with
    | some clStr =>
      match parseUsize clStr with
      | some n => buf.reserve n
      | none => buf
    | none => buf
  | none => buf

/-- The body-collection loop of `run_once_impl`: extend the buffer with each
successfully read chunk, abort on the first read error. The second component
counts the chunks polled (used for elapsed-time accounting). -/
def collectBody (buf : Buf) : List (Except Unit (List Nat)) → Except Unit Buf × Nat
  | [] => (.ok buf, 0)
  | .ok d :: rest =>
    let r := collectBody (buf.extend d) rest
    (r.1, r.2 + 1)
  | .error _ :: _ => (.error (), 1)

/-- Whether a byte list is valid UTF-8 (`String::from_utf8` succeeds),
following the Unicode well-formedness table: overlong encodings, surrogates
and values above U+10FFFF are rejected. -/
def utf8Valid : List Nat → Bool
  | [] => true
  | b :: rest =>
    if b ≤ 0x7F then utf8Valid rest
    else if 0xC2 ≤ b ∧ b ≤ 0xDF then
      match rest with
      | c1 :: rest2 => decide (0x80 ≤ c1 ∧ c1 ≤ 0xBF) && utf8Valid rest2
      | [] => false
    else if b = 0xE0 then
      match rest with
      | c1 :: c2 :: rest2 =>
        decide (0xA0 ≤ c1 ∧ c1 ≤ 0xBF) && decide (0x80 ≤ c2 ∧ c2 ≤ 0xBF) && utf8Valid rest2
      | _ => false
    else if (0xE1 ≤ b ∧ b ≤ 0xEC) ∨ b = 0xEE ∨ b = 0xEF then
      match rest with
      | c1 :: c2 :: rest2 =>
        decide (0x80 ≤ c1 ∧ c1 ≤ 0xBF) && decide (0x80 ≤ c2 ∧ c2 ≤ 0xBF) && utf8Valid rest2
      | _ => false
    else if b = 0xED then
      match rest with
      | c1 :: c2 :: rest2 =>
        decide (0x80 ≤ c1 ∧ c1 ≤ 0x9F) && decide (0x80 ≤ c2 ∧ c2 ≤ 0xBF) && utf8Valid rest2
      | _ => false
    else if b = 0xF0 then
      match rest with
      | c1 :: c2 :: c3 :: rest2 =>
        decide (0x90 ≤ c1 ∧ c1 ≤ 0xBF) && decide (0x80 ≤ c2 ∧ c2 ≤ 0xBF) &&
          decide (0x80 ≤ c3 ∧ c3 ≤ 0xBF) && utf8Valid rest2
      | _ => false
    else if 0xF1 ≤ b ∧ b ≤ 0xF3 then
      match rest with
      | c1 :: c2 :: c3 :: rest2 =>
        decide (0x80 ≤ c1 ∧ c1 ≤ 0xBF) && decide (0x80 ≤ c2 ∧ c2 ≤ 0xBF) &&
          decide (0x80 ≤ c3 ∧ c3 ≤ 0xBF) && utf8Valid rest2
      | _ => false
    else if b = 0xF4 then
      match rest with
      | c1 :: c2 :: c3 :: rest2 =>
        decide (0x80 ≤ c1 ∧ c1 ≤ 0x8F) && decide (0x80 ≤ c2 ∧ c2 ≤ 0xBF) &&
          decide (0x80 ≤ c3 ∧ c3 ≤ 0xBF) && utf8Valid rest2
      | _ => false
    else false

/-- Modelled from the spec: `PingBalancer::reset_servers` lives in
`local/loadbalancing`, outside the shown unit. Per the spec's pool boundary
(`replace_entries_from_source(entries, source_tags)`), it replaces only the
entries tagged with one of the given source tags, leaving all other entries
untouched, and appends the new entries. -/
def reset_servers (pool : List ServerEntry) (servers : List ServerEntry)
    (sources : List ServerSource) : List ServerEntry :=
  pool.filter (fun e => decide (e.source ∉ sources)) ++ servers

/-- Observable outcome of one `run_once_impl` execution: the result, the pool
after the cycle, the requests sent, the `reset_servers` invocations (entry
list and source-tag list), the bodies handed to `Config::load_from_str`, the
advisory `Content-Type` verdict (when a response was received), and the
wall-clock time at which the implementation future completes. -/
structure ImplOut where
  result : Except IoError Unit
  pool : List ServerEntry
  sends : List Request
  resetCalls : List (List ServerEntry × List ServerSource)
  parseCalls : List (List Nat)
  ctVerdict : Option CtVerdict
  finishTime : Nat
deriving Repr

/-- Everything of an `ImplOut` except the advisory `Content-Type` verdict
(which the source only logs). -/
structure Obs where
  result : Except IoError Unit
  pool : List ServerEntry
  sends : List Request
  resetCalls : List (List ServerEntry × List ServerSource)
  parseCalls : List (List Nat)
  finishTime : Nat
deriving DecidableEq, Repr

/-- Projection of an `ImplOut` onto its non-logging observables. -/
def ImplOut.obs (o : ImplOut) : Obs :=
  { result := o.result, pool := o.pool, sends := o.sends, resetCalls := o.resetCalls,
    parseCalls := o.parseCalls, finishTime := o.finishTime }

/-- Sum of the durations of the first `k` chunk reads. -/
def sumTake (k : Nat) (l : List Nat) : Nat :=
  (l.take k).sum

/-- Tail of `run_once_impl` from the UTF-8 decode on: decode, parse with the
`OnlineConfig` variant, check integrity, then reset the balancer's servers
with the parsed entry list and the singleton source-tag set
`[ServerSource::OnlineConfig]`. `tBody` is the wall-clock time at which body
collection finished. -/
def afterBody (env : Env) (pool : List ServerEntry) (req : Request) (verdict : CtVerdict)
    (tBody : Nat) (bodyData : List Nat) : ImplOut :=
  if utf8Valid bodyData then
    match env.load_from_str bodyData ConfigType.onlineConfig with
    | .error _ =>
      { result := .error ⟨.other, .parseError⟩, pool := pool, sends := [req],
        resetCalls := [], parseCalls := [bodyData], ctVerdict := some verdict,
        finishTime := tBody }
    | .ok cfg =>
      match env.check_integrity cfg with
      | .error _ =>
        { result := .error ⟨.other, .integrityError⟩, pool := pool, sends := [req],
          resetCalls := [], parseCalls := [bodyData], ctVerdict := some verdict,
          finishTime := tBody }
      | .ok _ =>
        match env.resetErr with
        | some kd =>
          { result := .error ⟨kd.1, .balancerError kd.2⟩, pool := pool, sends := [req],
            resetCalls := [(cfg.server, [ServerSource.onlineConfig])],
            parseCalls := [bodyData], ctVerdict := some verdict,
            finishTime := tBody + env.durUpdate }
        | none =>
          { result := .ok (),
            pool := reset_servers pool cfg.server [ServerSource.onlineConfig],
            sends := [req],
            resetCalls := [(cfg.server, [ServerSource.onlineConfig])],
            parseCalls := [bodyData], ctVerdict := some verdict,
            finishTime := tBody + env.durUpdate }
  else
    { result := .error ⟨.other, .nonUtf8Body⟩, pool := pool, sends := [req],
      resetCalls := [], parseCalls := [], ctVerdict := some verdict, finishTime := tBody }

/-- Tail of `run_once_impl` once a response has arrived: advisory
`Content-Type` inspection, `Content-Length`-hinted buffer allocation, body
collection, then `afterBody`. -/
def afterSend (env : Env) (pool : List ServerEntry) (req : Request) (rsp : Response) :
    ImplOut :=
  let verdict := contentTypeVerdict env.mimeParse rsp.contentType
  let collected := collectBody (initialBuf rsp) rsp.chunks
  match collected.1 with
  | .error _ =>
    { result := .error ⟨.other, .bodyReadError⟩, pool := pool, sends := [req],
      resetCalls := [], parseCalls := [], ctVerdict := some verdict,
      finishTime := env.durSend + sumTake collected.2 env.durChunks }
  | .ok buf =>
    afterBody env pool req verdict (env.durSend + sumTake collected.2 env.durChunks) buf.data

/-- The `run_once_impl` pipeline: build the request (failing before any
network activity when `hyper` rejects it), send it, then hand the response to
`afterSend`. -/
def OnlineConfigService.run_once_impl (s : OnlineConfigService) (env : Env)
    (pool : List ServerEntry) : ImplOut :=
  let req := theRequest s env
  if env.requestOk req then
    match env.send req with
    | .error _ =>
      { result := .error ⟨.other, .transportError⟩, pool := pool, sends := [req],
        resetCalls := [], parseCalls := [], ctVerdict := none, finishTime := env.durSend }
    | .ok rsp => afterSend env pool req rsp
  else
    { result := .error ⟨.other, .hyperHttpError⟩, pool := pool, sends := [],
      resetCalls := [], parseCalls := [], ctVerdict := none, finishTime := 0 }

/-- The fixed 30-second deadline of `run_once`. -/
def deadlineSecs : Nat := 30

/-- Result of `run_once` as seen by its caller: the `io::Result<()>` and the
pool after the cycle. -/
structure RunOut where
  result : Except IoError Unit
  pool : List ServerEntry
deriving DecidableEq, Repr

/-- The `run_once` wrapper: race `run_once_impl` against the 30-second
deadline. When the implementation future would complete after the deadline,
the timer fires first, the future is cancelled, and `run_once` returns
`io::ErrorKind::TimedOut`; the pool mutation, being the final stage, has not
completed and the pool is unchanged. -/
def OnlineConfigService.run_once (s : OnlineConfigService) (env : Env)
    (pool : List ServerEntry) : RunOut :=
  let r := s.run_once_impl env pool
  if deadlineSecs < r.finishTime then
    { result := .error ⟨.timedOut, .emptyPayload⟩, pool := pool }
  else
    { result := r.result, pool := r.pool }

/-- One iteration of the `run` loop: sleep for the configured interval, then
attempt one cycle, discarding (`let _ =`) its result. -/
structure TickOut where
  slept : Nat
  result : Except IoError Unit
  pool : List ServerEntry
deriving DecidableEq, Repr

/-- One tick of the `run` loop. -/
def OnlineConfigService.run_tick (s : OnlineConfigService) (env : Env)
    (pool : List ServerEntry) : TickOut :=
  let r := s.run_once env pool
  { slept := s.config_update_interval, result := r.result, pool := r.pool }

/-- The `run` loop, observed for its first `n` iterations: tick `i` uses the
oracle `envs i`. Returns the pool after the `n` ticks and the per-tick
trace. The loop itself never terminates; `n` is only the length of the
observation window. -/
def OnlineConfigService.run_loop (s : OnlineConfigService) (envs : Nat → Env)
    (pool : List ServerEntry) : Nat → List ServerEntry × List TickOut
  | 0 => (pool, [])
  | n + 1 =>
    let t := s.run_tick (envs 0) pool
    let rest := s.run_loop (fun i => envs (i + 1)) t.pool n
    (rest.1, t :: rest.2)

/-- The service value `build` assembles from the builder before the first
cycle (`HttpClient::new()` for the client field). -/
def OnlineConfigServiceBuilder.service (b : OnlineConfigServiceBuilder) :
    OnlineConfigService :=
  { context := b.context, http_client := (), config_url := b.config_url,
    config_update_interval := b.config_update_interval, balancer := b.balancer }

/-- The `OnlineConfigServiceBuilder::build` operation: assemble the service,
run one cycle, and fail construction when that cycle fails. Returns the
construction result together with the pool after the first cycle. -/
def OnlineConfigServiceBuilder.build (b : OnlineConfigServiceBuilder) (env : Env)
    (pool : List ServerEntry) : Except IoError OnlineConfigService × List ServerEntry :=
  let service := b.service
  let r := service.run_once env pool
  match r.result with
  | .error e => (.error e, r.pool)
  | .ok _ => (.ok service, r.pool)

/-- Environment with the one response's `Content-Type` header replaced. -/
def Env.withCt (env : Env) (ct : Option (List Nat)) : Env :=
  { env with send := fun r => (env.send r).map (fun rsp => { rsp with contentType := ct }) }

/-- Environment with the one response's `Content-Length` header replaced. -/
def Env.withCl (env : Env) (cl : Option (List Nat)) : Env :=
  { env with send := fun r => (env.send r).map (fun rsp => { rsp with contentLength := cl }) }

/-- Environment with the one response's status code replaced. -/
def Env.withStatus (env : Env) (st : Nat) : Env :=
  { env with send := fun r => (env.send r).map (fun rsp => { rsp with status := st }) }

/-- Environment whose one response is transformed by `f` before the service
sees it. `withCt`, `withCl` and `withStatus` are instances of this. -/
def Env.mapResponse (env : Env) (f : Response → Response) : Env :=
  { env with send := fun r => (env.send r).map f }

/-- The error payloads produced by the six pre-update failure sites of
`run_once_impl` (request construction, transport, body read, UTF-8 decode,
parse, integrity). -/
def sixErrorPayloads : List ErrorPayload :=
  [.hyperHttpError, .transportError, .bodyReadError, .nonUtf8Body, .parseError, .integrityError]

/-- A response carrying the two bytes `{}` as its single body chunk, with no
`Content-Type` or `Content-Length` header. -/
def rspOk : Response :=
  { status := 200, contentType := none, contentLength := none,
    chunks := [Except.ok [123, 125]] }

/-- A response whose second body-chunk read fails. -/
def rspChunkErr : Response :=
  { status := 200, contentType := none, contentLength := none,
    chunks := [Except.ok [1, 2], Except.error ()] }

/-- A response whose body is the single byte 0xFF, which is not valid UTF-8. -/
def rspBadUtf8 : Response :=
  { status := 200, contentType := none, contentLength := none,
    chunks := [Except.ok [255]] }

/-- A one-entry parsed configuration. -/
def cfg0 : Config :=
  { server := [{ source := ServerSource.onlineConfig, payload := "s1" }], meta := 0 }

/-- A fully successful oracle: the request is accepted, the transport returns
`rspOk`, parsing yields `cfg0`, integrity passes, the balancer update
succeeds, and every stage is fast. -/
def envOk : Env :=
  { pkgName := "shadowsocks-service", pkgVersion := "1.23.5",
    requestOk := fun _ => true,
    send := fun _ => .ok rspOk,
    mimeParse := fun _ => none,
    load_from_str := fun _ _ => .ok cfg0,
    check_integrity := fun _ => .ok (),
    resetErr := none,
    durSend := 1, durChunks := [1], durUpdate := 1 }

/-- The successful oracle, but the request send alone takes 31 seconds. -/
def envSlow : Env :=
  { envOk with durSend := 31 }

/-- The successful oracle, but the document parser rejects the body. -/
def envParseFail : Env :=
  { envOk with load_from_str := fun _ _ => .error () }

/-- The successful oracle, but the second body-chunk read fails. -/
def envChunkErr : Env :=
  { envOk with send := fun _ => .ok rspChunkErr }

/-- The successful oracle, but the body is not valid UTF-8. -/
def envBadUtf8 : Env :=
  { envOk with send := fun _ => .ok rspBadUtf8 }

/-- The successful oracle, but `hyper` rejects the request. -/
def envBadReq : Env :=
  { envOk with requestOk := fun _ => false }

/-- A concrete service value. -/
def svc0 : OnlineConfigService :=
  { context := 0, http_client := (), config_url := "http://example.com/config.json",
    config_update_interval := 3600, balancer := 0 }

/-- A concrete initial pool holding one entry from the static config file and
one stale entry from a previous online-config fetch. -/
def pool0 : List ServerEntry :=
  [{ source := ServerSource.configFile, payload := "static" },
   { source := ServerSource.onlineConfig, payload := "stale" }]

/-- Capacity (and hence `Vec::reserve`) does not influence the collected
bytes nor the number of chunk reads. -/
theorem collectBody_cap : ∀ (chunks : List (Except Unit (List Nat))) (d : List Nat) (c c' : Nat),
    ((collectBody ⟨d, c⟩ chunks).1.map Buf.data = (collectBody ⟨d, c'⟩ chunks).1.map Buf.data) ∧
      (collectBody ⟨d, c⟩ chunks).2 = (collectBody ⟨d, c'⟩ chunks).2
  | [], _, _, _ => ⟨rfl, rfl⟩
  | .ok a :: rest, d, c, c' => by
    simpa [collectBody, Buf.extend] using collectBody_cap rest (d ++ a) _ _
  | .error _ :: _, _, _, _ => ⟨rfl, rfl⟩

/-- When every chunk read succeeds, the collected body is exactly the
in-order concatenation of the chunks, and every chunk is polled. -/
theorem collectBody_allOk : ∀ (ds : List (List Nat)) (buf : Buf),
    ((collectBody buf (ds.map Except.ok)).1.map Buf.data = Except.ok (buf.data ++ ds.flatten)) ∧
      (collectBody buf (ds.map Except.ok)).2 = ds.length
  | [], buf => ⟨by simp [collectBody, Except.map], rfl⟩
  | a :: rest, buf => by
    have ih := collectBody_allOk rest (buf.extend a)
    simp [collectBody, Buf.extend, Except.map] at ih ⊢
    exact ⟨ih.1, ih.2⟩

/-- The initial buffer is always empty; the `Content-Length` hint only sets
its capacity. -/
theorem initialBuf_data (rsp : Response) : (initialBuf rsp).data = [] := by
  unfold initialBuf
  cases rsp.contentLength with
  | none => rfl
  | some clBytes =>
    cases h1 : headerToStr clBytes with
    | none => simp [h1]
    | some clStr =>
      cases h2 : parseUsize clStr with
      | none => simp [h1, h2]
      | some n => simp [h1, h2, Buf.reserve]

/-- Reduction of `run_once_impl` when `hyper` rejects the request. -/
theorem run_once_impl_req_bad (s : OnlineConfigService) (env : Env) (pool : List ServerEntry)
    (hreq : env.requestOk (theRequest s env) = false) :
    s.run_once_impl env pool =
      { result := .error ⟨.other, .hyperHttpError⟩, pool := pool, sends := [],
        resetCalls := [], parseCalls := [], ctVerdict := none, finishTime := 0 } := by
  simp [OnlineConfigService.run_once_impl, hreq]

/-- Reduction of `run_once_impl` when the transport fails. -/
theorem run_once_impl_send_error (s : OnlineConfigService) (env : Env) (pool : List ServerEntry)
    (hreq : env.requestOk (theRequest s env) = true)
    (hsend : env.send (theRequest s env) = .error ()) :
    s.run_once_impl env pool =
      { result := .error ⟨.other, .transportError⟩, pool := pool, sends := [theRequest s env],
        resetCalls := [], parseCalls := [], ctVerdict := none, finishTime := env.durSend } := by
  simp [OnlineConfigService.run_once_impl, hreq, hsend]

/-- Reduction of `run_once_impl` when a response arrives. -/
theorem run_once_impl_send_ok (s : OnlineConfigService) (env : Env) (pool : List ServerEntry)
    (rsp : Response) (hreq : env.requestOk (theRequest s env) = true)
    (hsend : env.send (theRequest s env) = .ok rsp) :
    s.run_once_impl env pool = afterSend env pool (theRequest s env) rsp := by
  simp [OnlineConfigService.run_once_impl, hreq, hsend]

/-- The advisory verdict is the only part of `afterBody`'s outcome that
depends on the verdict argument. -/
theorem afterBody_obs_verdict (env : Env) (pool : List ServerEntry) (req : Request)
    (v v' : CtVerdict) (t : Nat) (d : List Nat) :
    (afterBody env pool req v t d).obs = (afterBody env pool req v' t d).obs := by
  unfold afterBody
  by_cases hu : utf8Valid d
  · simp only [hu, if_true]
    cases hl : env.load_from_str d ConfigType.onlineConfig with
    | error e => simp [hl, ImplOut.obs]
    | ok cfg =>
      cases hc : env.check_integrity cfg with
      | error e => simp [hl, hc, ImplOut.obs]
      | ok u =>
        cases hr : env.resetErr with
        | some kd => simp [hl, hc, hr, ImplOut.obs]
        | none => simp [hl, hc, hr, ImplOut.obs]
  · simp [hu, ImplOut.obs]

/-- Every post-construction outcome of `afterBody` records exactly the one
request that was sent. -/
theorem afterBody_sends (env : Env) (pool : List ServerEntry) (req : Request) (v : CtVerdict)
    (t : Nat) (d : List Nat) : (afterBody env pool req v t d).sends = [req] := by
  unfold afterBody
  by_cases hu : utf8Valid d
  · simp only [hu, if_true]
    cases hl : env.load_from_str d ConfigType.onlineConfig with
    | error e => simp [hl]
    | ok cfg =>
      cases hc : env.check_integrity cfg with
      | error e => simp [hl, hc]
      | ok u =>
        cases hr : env.resetErr with
        | some kd => simp [hl, hc, hr]
        | none => simp [hl, hc, hr]
  · simp [hu]

/-- Every outcome of `afterSend` records exactly the one request that was
sent. -/
theorem afterSend_sends (env : Env) (pool : List ServerEntry) (req : Request) (rsp : Response) :
    (afterSend env pool req rsp).sends = [req] := by
  simp only [afterSend]
  cases hc : (collectBody (initialBuf rsp) rsp.chunks).1 with
  | error e => simp [hc]
  | ok buf =>
    simp only [hc]
    exact afterBody_sends env pool req _ _ buf.data

/-- Replacing the `Content-Type` oracle field leaves `afterSend` unchanged
(it only reads the other environment fields). -/
theorem afterSend_withCt (env : Env) (ct : Option (List Nat)) (pool : List ServerEntry)
    (req : Request) (rsp : Response) :
    afterSend (Env.withCt env ct) pool req rsp = afterSend env pool req rsp := rfl

/-- Replacing the `Content-Length` oracle field leaves `afterSend` unchanged. -/
theorem afterSend_withCl (env : Env) (cl : Option (List Nat)) (pool : List ServerEntry)
    (req : Request) (rsp : Response) :
    afterSend (Env.withCl env cl) pool req rsp = afterSend env pool req rsp := rfl

/-- Replacing the status oracle field leaves `afterSend` unchanged. -/
theorem afterSend_withStatus (env : Env) (st : Nat) (pool : List ServerEntry)
    (req : Request) (rsp : Response) :
    afterSend (Env.withStatus env st) pool req rsp = afterSend env pool req rsp := rfl

/-- The response's status code is never read after the send: `afterSend` is
invariant under replacing it. -/
theorem afterSend_status (env : Env) (pool : List ServerEntry) (req : Request) (rsp : Response)
    (st : Nat) :
    afterSend env pool req { rsp with status := st } = afterSend env pool req rsp := rfl

/-- The `Content-Type` header feeds only the advisory verdict: the non-logging
observables of `afterSend` are invariant under replacing it. -/
theorem afterSend_obs_ct (env : Env) (pool : List ServerEntry) (req : Request) (rsp : Response)
    (ct ct' : Option (List Nat)) :
    (afterSend env pool req { rsp with contentType := ct }).obs =
      (afterSend env pool req { rsp with contentType := ct' }).obs := by
  have hib : initialBuf { rsp with contentType := ct } = initialBuf rsp := rfl
  have hib' : initialBuf { rsp with contentType := ct' } = initialBuf rsp := rfl
  simp only [afterSend, hib, hib']
  cases hc : (collectBody (initialBuf rsp) rsp.chunks).1 with
  | error e => simp [hc, ImplOut.obs]
  | ok buf =>
    simp only [hc]
    exact afterBody_obs_verdict env pool req _ _ _ buf.data

/-- The `Content-Length` header feeds only the buffer capacity: the
observables of `afterSend` are invariant under replacing it. -/
theorem afterSend_obs_cl (env : Env) (pool : List ServerEntry) (req : Request) (rsp : Response)
    (cl cl' : Option (List Nat)) :
    (afterSend env pool req { rsp with contentLength := cl }).obs =
      (afterSend env pool req { rsp with contentLength := cl' }).obs := by
  obtain ⟨c1, h1⟩ : ∃ c, initialBuf { rsp with contentLength := cl } = ⟨[], c⟩ :=
    ⟨(initialBuf { rsp with contentLength := cl }).cap,
      by rw [← initialBuf_data { rsp with contentLength := cl }]⟩
  obtain ⟨c2, h2⟩ : ∃ c, initialBuf { rsp with contentLength := cl' } = ⟨[], c⟩ :=
    ⟨(initialBuf { rsp with contentLength := cl' }).cap,
      by rw [← initialBuf_data { rsp with contentLength := cl' }]⟩
  have hcap := collectBody_cap rsp.chunks [] c1 c2
  simp only [afterSend, h1, h2]
  cases hA : (collectBody ⟨[], c1⟩ rsp.chunks).1 with
  | error e =>
    cases hB : (collectBody ⟨[], c2⟩ rsp.chunks).1 with
    | error e' => simp [hA, hB, ImplOut.obs, hcap.2]
    | ok b =>
      exfalso
      have := hcap.1
      rw [hA, hB] at this
      simp [Except.map] at this
  | ok b =>
    cases hB : (collectBody ⟨[], c2⟩ rsp.chunks).1 with
    | error e' =>
      exfalso
      have := hcap.1
      rw [hA, hB] at this
      simp [Except.map] at this
    | ok b' =>
      have hdata : b.data = b'.data := by
        have := hcap.1
        rw [hA, hB] at this
        simpa [Except.map] using this
      simp only [hA, hB]
      rw [hdata, hcap.2]

/-- Exhaustive case analysis of one `run_once_impl` execution: either a
pre-update stage failed (an `ErrorKind::Other` error with one of the six
wrapped payloads, no `reset_servers` call, pool unchanged), or the balancer
update itself failed (its own error passed through, pool unchanged), or the
cycle succeeded (one `reset_servers` call with the parsed entry list and the
singleton `[ServerSource::OnlineConfig]` tag set, pool replaced accordingly). -/
theorem run_once_impl_shape (s : OnlineConfigService) (env : Env) (pool : List ServerEntry) :
    (∃ e, (s.run_once_impl env pool).result = .error e ∧ e.payload ∈ sixErrorPayloads ∧
      e.kind = .other ∧ (s.run_once_impl env pool).resetCalls = [] ∧
      (s.run_once_impl env pool).pool = pool) ∨
    (∃ kd cfg body, env.resetErr = some kd ∧
      (s.run_once_impl env pool).result = .error ⟨kd.1, .balancerError kd.2⟩ ∧
      (s.run_once_impl env pool).parseCalls = [body] ∧
      env.load_from_str body ConfigType.onlineConfig = .ok cfg ∧
      (s.run_once_impl env pool).resetCalls = [(cfg.server, [ServerSource.onlineConfig])] ∧
      (s.run_once_impl env pool).pool = pool) ∨
    (∃ cfg body, (s.run_once_impl env pool).result = .ok () ∧
      (s.run_once_impl env pool).parseCalls = [body] ∧
      env.load_from_str body ConfigType.onlineConfig = .ok cfg ∧
      (s.run_once_impl env pool).resetCalls = [(cfg.server, [ServerSource.onlineConfig])] ∧
      (s.run_once_impl env pool).pool =
        reset_servers pool cfg.server [ServerSource.onlineConfig]) := by
  by_cases hreq : env.requestOk (theRequest s env)
  · cases hsend : env.send (theRequest s env) with
    | error e0 =>
      rw [run_once_impl_send_error s env pool hreq (by cases e0; exact hsend)]
      left
      exact ⟨⟨.other, .transportError⟩, rfl, by simp [sixErrorPayloads], rfl, rfl, rfl⟩
    | ok rsp =>
      rw [run_once_impl_send_ok s env pool rsp hreq hsend]
      simp only [afterSend]
      cases hcoll : (collectBody (initialBuf rsp) rsp.chunks).1 with
      | error u =>
        simp only [hcoll]
        left
        refine ⟨⟨.other, .bodyReadError⟩, ?_, ?_, ?_, ?_, ?_⟩ <;> simp [sixErrorPayloads]
      | ok buf =>
        simp only [hcoll]
        unfold afterBody
        by_cases hu : utf8Valid buf.data
        · simp only [hu, if_true]
          cases hload : env.load_from_str buf.data ConfigType.onlineConfig with
          | error e1 =>
            simp only [hload]
            left
            refine ⟨⟨.other, .parseError⟩, ?_, ?_, ?_, ?_, ?_⟩ <;> simp [sixErrorPayloads]
          | ok cfg =>
            simp only [hload]
            cases hchk : env.check_integrity cfg with
            | error e2 =>
              simp only [hchk]
              left
              refine ⟨⟨.other, .integrityError⟩, ?_, ?_, ?_, ?_, ?_⟩ <;> simp [sixErrorPayloads]
            | ok u2 =>
              simp only [hchk]
              cases hre : env.resetErr with
              | some kd =>
                simp only [hre]
                right; left
                refine ⟨kd, cfg, buf.data, ?_, ?_, ?_, ?_, ?_, ?_⟩ <;> simp [hre, hload]
              | none =>
                simp only [hre]
                right; right
                refine ⟨cfg, buf.data, ?_, ?_, ?_, ?_, ?_⟩ <;> simp [hload]
        · simp only [hu, if_false]
          left
          refine ⟨⟨.other, .nonUtf8Body⟩, ?_, ?_, ?_, ?_, ?_⟩ <;> simp [sixErrorPayloads]
  · rw [run_once_impl_req_bad s env pool (by simpa using hreq)]
    left
    exact ⟨⟨.other, .hyperHttpError⟩, rfl, by simp [sixErrorPayloads], rfl, rfl, rfl⟩

/-- Any error outcome of `run_once_impl` leaves the pool unchanged. -/
theorem run_once_impl_error_pool (s : OnlineConfigService) (env : Env)
    (pool : List ServerEntry) (e : IoError)
    (h : (s.run_once_impl env pool).result = .error e) :
    (s.run_once_impl env pool).pool = pool := by
  rcases run_once_impl_shape s env pool with ⟨e', _, _, _, _, hp⟩ |
    ⟨kd, cfg, body, _, _, _, _, _, hp⟩ | ⟨cfg, body, hres, _⟩
  · exact hp
  · exact hp
  · have h2 := h.symm.trans hres
    simp at h2

/-- Non-logging observables of `run_once_impl` are invariant under replacing
the response transformation, whenever `afterSend` cannot tell the two
transformed responses apart. -/
theorem run_once_impl_mapResponse_obs (s : OnlineConfigService) (env : Env)
    (pool : List ServerEntry) (f g : Response → Response)
    (hfg : ∀ rsp, (afterSend env pool (theRequest s env) (f rsp)).obs =
      (afterSend env pool (theRequest s env) (g rsp)).obs) :
    (s.run_once_impl (env.mapResponse f) pool).obs =
      (s.run_once_impl (env.mapResponse g) pool).obs := by
  by_cases hreq : env.requestOk (theRequest s env) = true
  · cases hsend : env.send (theRequest s env) with
    | error e0 =>
      cases e0
      have h1 : (env.mapResponse f).send (theRequest s (env.mapResponse f)) = .error () := by
        show (env.send (theRequest s env)).map f = .error ()
        rw [hsend]; rfl
      have h2 : (env.mapResponse g).send (theRequest s (env.mapResponse g)) = .error () := by
        show (env.send (theRequest s env)).map g = .error ()
        rw [hsend]; rfl
      rw [run_once_impl_send_error s (env.mapResponse f) pool hreq h1,
        run_once_impl_send_error s (env.mapResponse g) pool hreq h2]
      rfl
    | ok rsp =>
      have h1 : (env.mapResponse f).send (theRequest s (env.mapResponse f)) = .ok (f rsp) := by
        show (env.send (theRequest s env)).map f = .ok (f rsp)
        rw [hsend]; rfl
      have h2 : (env.mapResponse g).send (theRequest s (env.mapResponse g)) = .ok (g rsp) := by
        show (env.send (theRequest s env)).map g = .ok (g rsp)
        rw [hsend]; rfl
      rw [run_once_impl_send_ok s (env.mapResponse f) pool (f rsp) hreq h1,
        run_once_impl_send_ok s (env.mapResponse g) pool (g rsp) hreq h2]
      have e1 : afterSend (env.mapResponse f) pool (theRequest s (env.mapResponse f)) (f rsp) =
          afterSend env pool (theRequest s env) (f rsp) := rfl
      have e2 : afterSend (env.mapResponse g) pool (theRequest s (env.mapResponse g)) (g rsp) =
          afterSend env pool (theRequest s env) (g rsp) := rfl
      rw [e1, e2]
      exact hfg rsp
  · have hbf : env.requestOk (theRequest s env) = false := by simpa using hreq
    rw [run_once_impl_req_bad s (env.mapResponse f) pool hbf,
      run_once_impl_req_bad s (env.mapResponse g) pool hbf]

/-- Outcome of `run_once_impl` is invariant under replacing the response
transformation, whenever `afterSend` cannot tell the transformed responses
apart at all. -/
theorem run_once_impl_mapResponse_eq (s : OnlineConfigService) (env : Env)
    (pool : List ServerEntry) (f g : Response → Response)
    (hfg : ∀ rsp, afterSend env pool (theRequest s env) (f rsp) =
      afterSend env pool (theRequest s env) (g rsp)) :
    s.run_once_impl (env.mapResponse f) pool = s.run_once_impl (env.mapResponse g) pool := by
  by_cases hreq : env.requestOk (theRequest s env) = true
  · cases hsend : env.send (theRequest s env) with
    | error e0 =>
      cases e0
      have h1 : (env.mapResponse f).send (theRequest s (env.mapResponse f)) = .error () := by
        show (env.send (theRequest s env)).map f = .error ()
        rw [hsend]; rfl
      have h2 : (env.mapResponse g).send (theRequest s (env.mapResponse g)) = .error () := by
        show (env.send (theRequest s env)).map g = .error ()
        rw [hsend]; rfl
      rw [run_once_impl_send_error s (env.mapResponse f) pool hreq h1,
        run_once_impl_send_error s (env.mapResponse g) pool hreq h2]
      rfl
    | ok rsp =>
      have h1 : (env.mapResponse f).send (theRequest s (env.mapResponse f)) = .ok (f rsp) := by
        show (env.send (theRequest s env)).map f = .ok (f rsp)
        rw [hsend]; rfl
      have h2 : (env.mapResponse g).send (theRequest s (env.mapResponse g)) = .ok (g rsp) := by
        show (env.send (theRequest s env)).map g = .ok (g rsp)
        rw [hsend]; rfl
      rw [run_once_impl_send_ok s (env.mapResponse f) pool (f rsp) hreq h1,
        run_once_impl_send_ok s (env.mapResponse g) pool (g rsp) hreq h2]
      have e1 : afterSend (env.mapResponse f) pool (theRequest s (env.mapResponse f)) (f rsp) =
          afterSend env pool (theRequest s env) (f rsp) := rfl
      have e2 : afterSend (env.mapResponse g) pool (theRequest s (env.mapResponse g)) (g rsp) =
          afterSend env pool (theRequest s env) (g rsp) := rfl
      rw [e1, e2]
      exact hfg rsp
  · have hbf : env.requestOk (theRequest s env) = false := by simpa using hreq
    rw [run_once_impl_req_bad s (env.mapResponse f) pool hbf,
      run_once_impl_req_bad s (env.mapResponse g) pool hbf]

/-- C1: when the wall-clock duration of the whole pipeline exceeds the fixed
30-second deadline, `run_once` returns exactly the `ErrorKind::TimedOut`
failure and the pool is byte-for-byte unchanged. -/
theorem onlineConfig_cycle_timeout (s : OnlineConfigService) (env : Env)
    (pool : List ServerEntry)
    (h : deadlineSecs < (s.run_once_impl env pool).finishTime) :
    (s.run_once env pool).result = .error ⟨.timedOut, .emptyPayload⟩ ∧
      (s.run_once env pool).pool = pool := by
  constructor <;> simp [OnlineConfigService.run_once, h]

/-- Witness for C1: a cycle whose request send alone takes 31 seconds times
out with the pool untouched. -/
theorem onlineConfig_cycle_timeout_witness :
    deadlineSecs < (svc0.run_once_impl envSlow pool0).finishTime ∧
      (svc0.run_once envSlow pool0).result = .error ⟨.timedOut, .emptyPayload⟩ ∧
      (svc0.run_once envSlow pool0).pool = pool0 :=
  ⟨by decide, onlineConfig_cycle_timeout svc0 envSlow pool0 (by decide)⟩

/-- C2: when any stage before the pool update fails (request construction,
transport, body-chunk read, UTF-8 decoding, parsing, or the integrity check),
`run_once_impl` returns an error, never calls `reset_servers`, and the pool
is exactly what it was before the cycle. -/
theorem run_once_impl_pre_update_failure (s : OnlineConfigService) (env : Env)
    (pool : List ServerEntry) (e : IoError)
    (h : (s.run_once_impl env pool).result = .error e)
    (hp : e.payload ∈ sixErrorPayloads) :
    (s.run_once_impl env pool).resetCalls = [] ∧
      (s.run_once_impl env pool).pool = pool := by
  rcases run_once_impl_shape s env pool with ⟨e', he', _, _, hrc, hpool⟩ |
    ⟨kd, cfg, body, _, hres, _, _, _, _⟩ | ⟨cfg, body, hres, _⟩
  · exact ⟨hrc, hpool⟩
  · have h2 := h.symm.trans hres
    simp only [Except.error.injEq] at h2
    subst h2
    simp [sixErrorPayloads] at hp
  · have h2 := h.symm.trans hres
    simp at h2

/-- Witness for C2: the parse-failure oracle aborts the cycle with no
`reset_servers` call and an unchanged pool. -/
theorem run_once_impl_pre_update_failure_witness :
    (svc0.run_once_impl envParseFail pool0).resetCalls = [] ∧
      (svc0.run_once_impl envParseFail pool0).pool = pool0 :=
  run_once_impl_pre_update_failure svc0 envParseFail pool0 ⟨.other, .parseError⟩
    (by decide) (by decide)

/-- C3: every successful cycle makes exactly one `reset_servers` call, whose
arguments are the parsed config's server list and the singleton source-tag
set `[ServerSource::OnlineConfig]`, so the new pool keeps every entry tagged
with any other source and replaces only the online-config entries. -/
theorem run_once_impl_success_reset (s : OnlineConfigService) (env : Env)
    (pool : List ServerEntry)
    (h : (s.run_once_impl env pool).result = .ok ()) :
    ∃ body cfg, (s.run_once_impl env pool).parseCalls = [body] ∧
      env.load_from_str body ConfigType.onlineConfig = .ok cfg ∧
      (s.run_once_impl env pool).resetCalls = [(cfg.server, [ServerSource.onlineConfig])] ∧
      (s.run_once_impl env pool).pool =
        reset_servers pool cfg.server [ServerSource.onlineConfig] ∧
      (s.run_once_impl env pool).pool =
        pool.filter (fun en => decide (¬ en.source = ServerSource.onlineConfig)) ++ cfg.server := by
  rcases run_once_impl_shape s env pool with ⟨e', he', _⟩ |
    ⟨kd, cfg, body, _, hres, _⟩ | ⟨cfg, body, hres, hpc, hload, hrc, hpool⟩
  · have h2 := h.symm.trans he'
    simp at h2
  · have h2 := h.symm.trans hres
    simp at h2
  · refine ⟨body, cfg, hpc, hload, hrc, hpool, ?_⟩
    rw [hpool]
    simp [reset_servers]

/-- Witness for C3: the successful oracle replaces the stale online-config
entry while keeping the static-config entry. -/
theorem run_once_impl_success_reset_witness :
    ∃ body cfg, (svc0.run_once_impl envOk pool0).parseCalls = [body] ∧
      envOk.load_from_str body ConfigType.onlineConfig = .ok cfg ∧
      (svc0.run_once_impl envOk pool0).resetCalls =
        [(cfg.server, [ServerSource.onlineConfig])] ∧
      (svc0.run_once_impl envOk pool0).pool =
        reset_servers pool0 cfg.server [ServerSource.onlineConfig] ∧
      (svc0.run_once_impl envOk pool0).pool =
        pool0.filter (fun en => decide (¬ en.source = ServerSource.onlineConfig)) ++ cfg.server :=
  run_once_impl_success_reset svc0 envOk pool0 (by decide)

/-- C4: the Content-Type inspection never aborts a cycle: every non-logging
observable of `run_once_impl` (result, pool, requests sent, reset and parse
calls, completion time) is independent of the value of the response's
`Content-Type` header, including its absence. -/
theorem run_once_impl_content_type_independent (s : OnlineConfigService) (env : Env)
    (pool : List ServerEntry) (ct ct' : Option (List Nat)) :
    (s.run_once_impl (Env.withCt env ct) pool).obs =
      (s.run_once_impl (Env.withCt env ct') pool).obs := by
  show (s.run_once_impl (env.mapResponse (fun rsp => { rsp with contentType := ct })) pool).obs =
    (s.run_once_impl (env.mapResponse (fun rsp => { rsp with contentType := ct' })) pool).obs
  exact run_once_impl_mapResponse_obs s env pool _ _
    (fun rsp => afterSend_obs_ct env pool (theRequest s env) rsp ct ct')

/-- C5: the `Content-Length` header is only a buffer-capacity hint (every
non-logging observable of the cycle is independent of it), and the collected
body is exactly the in-order concatenation of the successfully read chunks. -/
theorem run_once_impl_content_length_hint :
    (∀ (s : OnlineConfigService) (env : Env) (pool : List ServerEntry)
      (cl cl' : Option (List Nat)),
      (s.run_once_impl (Env.withCl env cl) pool).obs =
        (s.run_once_impl (Env.withCl env cl') pool).obs) ∧
    (∀ (buf : Buf) (ds : List (List Nat)),
      (collectBody buf (ds.map Except.ok)).1.map Buf.data =
        Except.ok (buf.data ++ ds.flatten) ∧
      (collectBody buf (ds.map Except.ok)).2 = ds.length) := by
  constructor
  · intro s env pool cl cl'
    show (s.run_once_impl (env.mapResponse (fun rsp => { rsp with contentLength := cl })) pool).obs =
      (s.run_once_impl (env.mapResponse (fun rsp => { rsp with contentLength := cl' })) pool).obs
    exact run_once_impl_mapResponse_obs s env pool _ _
      (fun rsp => afterSend_obs_cl env pool (theRequest s env) rsp cl cl')
  · intro buf ds
    exact collectBody_allOk ds buf

/-- C6: a failing body-chunk read aborts the cycle with the body-read error
and discards the partial data (nothing is parsed, no `reset_servers` call,
pool unchanged); a fully collected body that is not valid UTF-8 aborts with
the encoding error, with no partial decoding handed to the parser. -/
theorem run_once_impl_body_failures (s : OnlineConfigService) (env : Env)
    (pool : List ServerEntry) (rsp : Response)
    (hreq : env.requestOk (theRequest s env) = true)
    (hsend : env.send (theRequest s env) = .ok rsp) :
    ((collectBody (initialBuf rsp) rsp.chunks).1 = .error () →
      (s.run_once_impl env pool).result = .error ⟨.other, .bodyReadError⟩ ∧
      (s.run_once_impl env pool).parseCalls = [] ∧
      (s.run_once_impl env pool).resetCalls = [] ∧
      (s.run_once_impl env pool).pool = pool) ∧
    (∀ buf, (collectBody (initialBuf rsp) rsp.chunks).1 = .ok buf →
      utf8Valid buf.data = false →
      (s.run_once_impl env pool).result = .error ⟨.other, .nonUtf8Body⟩ ∧
      (s.run_once_impl env pool).parseCalls = [] ∧
      (s.run_once_impl env pool).resetCalls = [] ∧
      (s.run_once_impl env pool).pool = pool) := by
  rw [run_once_impl_send_ok s env pool rsp hreq hsend]
  constructor
  · intro hc
    simp [afterSend, hc]
  · intro buf hc hu
    simp [afterSend, hc, afterBody, hu]

/-- Witness for C6: a mid-stream read error yields the body-read failure, and
a 0xFF body yields the encoding failure, both leaving the pool alone. -/
theorem run_once_impl_body_failures_witness :
    ((svc0.run_once_impl envChunkErr pool0).result = .error ⟨.other, .bodyReadError⟩ ∧
      (svc0.run_once_impl envChunkErr pool0).parseCalls = [] ∧
      (svc0.run_once_impl envChunkErr pool0).resetCalls = [] ∧
      (svc0.run_once_impl envChunkErr pool0).pool = pool0) ∧
    ((svc0.run_once_impl envBadUtf8 pool0).result = .error ⟨.other, .nonUtf8Body⟩ ∧
      (svc0.run_once_impl envBadUtf8 pool0).parseCalls = [] ∧
      (svc0.run_once_impl envBadUtf8 pool0).resetCalls = [] ∧
      (svc0.run_once_impl envBadUtf8 pool0).pool = pool0) :=
  ⟨(run_once_impl_body_failures svc0 envChunkErr pool0 rspChunkErr rfl rfl).1 (by decide),
   (run_once_impl_body_failures svc0 envBadUtf8 pool0 rspBadUtf8 rfl rfl).2
     ⟨[255], 1⟩ (by decide) (by decide)⟩

/-- C7: `build` runs exactly one cycle on the assembled service: a failing
first cycle fails construction with that same error and yields no service,
while a successful one returns the service made of exactly the builder's
context, URL, interval and balancer. -/
theorem onlineConfigBuilder_build_first_cycle (b : OnlineConfigServiceBuilder) (env : Env)
    (pool : List ServerEntry) :
    (b.service = { context := b.context
                   http_client := ()
                   config_url := b.config_url
                   config_update_interval := b.config_update_interval
                   balancer := b.balancer }) ∧
    (∀ e, (b.service.run_once env pool).result = .error e →
      (b.build env pool).1 = .error e) ∧
    ((b.service.run_once env pool).result = .ok () →
      (b.build env pool).1 = .ok b.service) ∧
    ((b.build env pool).2 = (b.service.run_once env pool).pool) := by
  refine ⟨rfl, ?_, ?_, ?_⟩
  · intro e he
    simp [OnlineConfigServiceBuilder.build, he]
  · intro hok
    simp [OnlineConfigServiceBuilder.build, hok]
  · cases hr : (b.service.run_once env pool).result <;>
      simp [OnlineConfigServiceBuilder.build, hr]

/-- Witness for C7: an unreachable parser fails construction with the parse
error, while the successful oracle builds the service from the builder's
fields. -/
theorem onlineConfigBuilder_build_first_cycle_witness :
    (((OnlineConfigServiceBuilder.new 7 "http://cfg" 3).build envParseFail pool0).1 =
      .error ⟨.other, .parseError⟩) ∧
    (((OnlineConfigServiceBuilder.new 7 "http://cfg" 3).build envOk pool0).1 =
      .ok (OnlineConfigServiceBuilder.new 7 "http://cfg" 3).service) :=
  ⟨(onlineConfigBuilder_build_first_cycle (OnlineConfigServiceBuilder.new 7 "http://cfg" 3)
      envParseFail pool0).2.1 ⟨.other, .parseError⟩ (by decide),
   (onlineConfigBuilder_build_first_cycle (OnlineConfigServiceBuilder.new 7 "http://cfg" 3)
      envOk pool0).2.2.1 (by decide)⟩

/-- The observation window of the `run` loop contains exactly one tick per
scheduled iteration. -/
theorem run_loop_length (s : OnlineConfigService) :
    ∀ (n : Nat) (envs : Nat → Env) (pool : List ServerEntry),
      (s.run_loop envs pool n).2.length = n
  | 0, _, _ => rfl
  | n + 1, envs, pool => by
    simp [OnlineConfigService.run_loop, run_loop_length s n]

/-- Every tick of the `run` loop sleeps for the configured interval before
its cycle. -/
theorem run_loop_slept (s : OnlineConfigService) :
    ∀ (n : Nat) (envs : Nat → Env) (pool : List ServerEntry) (t : TickOut),
      t ∈ (s.run_loop envs pool n).2 → t.slept = s.config_update_interval
  | 0, _, _, _ => by
    intro ht
    simp [OnlineConfigService.run_loop] at ht
  | n + 1, envs, pool, t => by
    intro ht
    simp only [OnlineConfigService.run_loop, List.mem_cons] at ht
    rcases ht with h | h
    · rw [h]
      rfl
    · exact run_loop_slept s n _ _ t h

/-- C8: the `run` loop is an unconditional recurrence: every iteration first
sleeps the configured interval (default 3600 seconds from the builder), then
attempts one cycle whose failure is discarded (the pool of a failing tick is
the previous pool), and the next iteration always takes place, so the loop
never terminates on its own. -/
theorem onlineConfig_run_loop_schedule (s : OnlineConfigService) (envs : Nat → Env)
    (pool : List ServerEntry) (n : Nat) :
    ((s.run_loop envs pool (n + 1)).2 =
      s.run_tick (envs 0) pool ::
        (s.run_loop (fun i => envs (i + 1)) (s.run_tick (envs 0) pool).pool n).2) ∧
    ((s.run_loop envs pool n).2.length = n) ∧
    (∀ t ∈ (s.run_loop envs pool n).2, t.slept = s.config_update_interval) ∧
    ((s.run_tick (envs 0) pool).slept = s.config_update_interval) ∧
    (∀ e, (s.run_once (envs 0) pool).result = .error e →
      (s.run_tick (envs 0) pool).pool = pool) ∧
    (∀ c u bal, (OnlineConfigServiceBuilder.new c u bal).config_update_interval = 3600) := by
  refine ⟨rfl, run_loop_length s n envs pool,
    fun t => run_loop_slept s n envs pool t, rfl, ?_, fun c u bal => rfl⟩
  intro e he
  show (s.run_once (envs 0) pool).pool = pool
  unfold OnlineConfigService.run_once at he ⊢
  by_cases ht : deadlineSecs < (s.run_once_impl (envs 0) pool).finishTime
  · simp [ht]
  · simp only [ht, if_false] at he ⊢
    exact run_once_impl_error_pool s (envs 0) pool e he

/-- Witness for C8: a two-tick window of the successful oracle has two ticks
of interval 3600, a failing tick keeps the pool, and the builder default is
3600 seconds. -/
theorem onlineConfig_run_loop_schedule_witness :
    ((svc0.run_loop (fun _ => envOk) pool0 2).2.length = 2) ∧
    ((svc0.run_tick envParseFail pool0).slept = 3600) ∧
    ((svc0.run_tick envParseFail pool0).pool = pool0) ∧
    ((OnlineConfigServiceBuilder.new 0 "http://cfg" 0).config_update_interval = 3600) :=
  ⟨(onlineConfig_run_loop_schedule svc0 (fun _ => envOk) pool0 2).2.1,
   (onlineConfig_run_loop_schedule svc0 (fun _ => envParseFail) pool0 0).2.2.2.1,
   (onlineConfig_run_loop_schedule svc0 (fun _ => envParseFail) pool0 0).2.2.2.2.1
     ⟨.other, .parseError⟩ (by decide),
   (onlineConfig_run_loop_schedule svc0 (fun _ => envOk) pool0 0).2.2.2.2.2 0 "http://cfg" 0⟩

/-- C9: each cycle builds one GET request to the configured URL with the
`<package>/<version>` User-Agent and empty body; a rejected request fails the
cycle before any network activity (nothing is sent), otherwise exactly that
one request is sent; and the response's status code is never inspected. -/
theorem run_once_impl_request_shape (s : OnlineConfigService) (env : Env)
    (pool : List ServerEntry) :
    ((theRequest s env).method = "GET" ∧ (theRequest s env).uri = s.config_url ∧
      (theRequest s env).userAgent = env.pkgName ++ "/" ++ env.pkgVersion ∧
      (theRequest s env).body = "") ∧
    (env.requestOk (theRequest s env) = false →
      (s.run_once_impl env pool).result = .error ⟨.other, .hyperHttpError⟩ ∧
      (s.run_once_impl env pool).sends = []) ∧
    (env.requestOk (theRequest s env) = true →
      (s.run_once_impl env pool).sends = [theRequest s env]) ∧
    (∀ st st', s.run_once_impl (Env.withStatus env st) pool =
      s.run_once_impl (Env.withStatus env st') pool) := by
  refine ⟨⟨rfl, rfl, rfl, rfl⟩, ?_, ?_, ?_⟩
  · intro hb
    rw [run_once_impl_req_bad s env pool hb]
    exact ⟨rfl, rfl⟩
  · intro hb
    cases hsend : env.send (theRequest s env) with
    | error e0 =>
      cases e0
      rw [run_once_impl_send_error s env pool hb hsend]
    | ok rsp =>
      rw [run_once_impl_send_ok s env pool rsp hb hsend]
      exact afterSend_sends env pool (theRequest s env) rsp
  · intro st st'
    show s.run_once_impl (env.mapResponse (fun rsp => { rsp with status := st })) pool =
      s.run_once_impl (env.mapResponse (fun rsp => { rsp with status := st' })) pool
    exact run_once_impl_mapResponse_eq s env pool _ _
      (fun rsp => (afterSend_status env pool (theRequest s env) rsp st).trans
        (afterSend_status env pool (theRequest s env) rsp st').symm)

/-- Witness for C9: the rejected request sends nothing and fails, the
accepted one sends exactly one request, and two different statuses give the
same cycle outcome. -/
theorem run_once_impl_request_shape_witness :
    ((theRequest svc0 envOk).method = "GET" ∧
      (theRequest svc0 envOk).uri = svc0.config_url ∧
      (theRequest svc0 envOk).userAgent = envOk.pkgName ++ "/" ++ envOk.pkgVersion ∧
      (theRequest svc0 envOk).body = "") ∧
    ((svc0.run_once_impl envBadReq pool0).result = .error ⟨.other, .hyperHttpError⟩ ∧
      (svc0.run_once_impl envBadReq pool0).sends = []) ∧
    ((svc0.run_once_impl envOk pool0).sends = [theRequest svc0 envOk]) ∧
    (svc0.run_once_impl (Env.withStatus envOk 200) pool0 =
      svc0.run_once_impl (Env.withStatus envOk 404) pool0) :=
  ⟨(run_once_impl_request_shape svc0 envOk pool0).1,
   (run_once_impl_request_shape svc0 envBadReq pool0).2.1 (by decide),
   (run_once_impl_request_shape svc0 envOk pool0).2.2.1 (by decide),
   (run_once_impl_request_shape svc0 envOk pool0).2.2.2 200 404⟩

/-- C10: every failure of `run_once` is a single `io::Error`; deadline expiry
yields exactly `ErrorKind::TimedOut`, a cycle finishing within the deadline
surfaces the implementation's own error, and every error wrapped at one of
the six pre-update construction sites carries `ErrorKind::Other`, so those
categories are not distinguishable by kind alone. -/
theorem run_once_error_kinds (s : OnlineConfigService) (env : Env)
    (pool : List ServerEntry) :
    (∀ e, (s.run_once_impl env pool).result = .error e → e.payload ∈ sixErrorPayloads →
      e.kind = .other) ∧
    (deadlineSecs < (s.run_once_impl env pool).finishTime →
      (s.run_once env pool).result = .error ⟨.timedOut, .emptyPayload⟩) ∧
    (¬ deadlineSecs < (s.run_once_impl env pool).finishTime →
      (s.run_once env pool).result = (s.run_once_impl env pool).result) := by
  refine ⟨?_, ?_, ?_⟩
  · intro e he hp
    rcases run_once_impl_shape s env pool with ⟨e', he', _, hk, _, _⟩ |
      ⟨kd, cfg, body, _, hres, _⟩ | ⟨cfg, body, hres, _⟩
    · have h2 := he.symm.trans he'
      simp only [Except.error.injEq] at h2
      rw [h2]
      exact hk
    · have h2 := he.symm.trans hres
      simp only [Except.error.injEq] at h2
      subst h2
      simp [sixErrorPayloads] at hp
    · have h2 := he.symm.trans hres
      simp at h2
  · intro ht
    simp [OnlineConfigService.run_once, ht]
  · intro ht
    simp [OnlineConfigService.run_once, ht]

/-- Witness for C10: a parse failure carries kind Other, the slow oracle
yields kind TimedOut, and a fast cycle's error is the implementation's. -/
theorem run_once_error_kinds_witness :
    ((⟨IoErrorKind.other, ErrorPayload.parseError⟩ : IoError).kind = IoErrorKind.other) ∧
    ((svc0.run_once envSlow []).result = .error ⟨.timedOut, .emptyPayload⟩) ∧
    ((svc0.run_once envParseFail []).result = (svc0.run_once_impl envParseFail []).result) :=
  ⟨(run_once_error_kinds svc0 envParseFail []).1 ⟨.other, .parseError⟩ (by decide) (by decide),
   (run_once_error_kinds svc0 envSlow []).2.1 (by decide),
   (run_once_error_kinds svc0 envParseFail []).2.2 (by decide)⟩
